import Mathlib

/-!
Verification of the progression/economy engine of the Designer Clicker bot.

The authoritative implementation is the complete, runnable single-file
edition `src/designer_clicker_bot.py` (the repository also ships a partial
`src/bot/` package that cannot be imported as given: it lacks its
`bot/database/models.py` and `bot/states.py` modules).  Python integers are
modelled as `ℤ` (or `ℕ` where the source value is a count), Python float
arithmetic is modelled exactly over `ℚ`, Python's `round` (round half to
even) is `pyround`, and `int(...)` truncation toward zero is `pytrunc`.
Database rows are modelled as lists of the tuples the queries select.
-/

/-- Python's builtin `round` on an exact rational: round half to even. -/
def pyround (q : ℚ) : ℤ :=
  if q - ⌊q⌋ < 1/2 then ⌊q⌋
  else if 1/2 < q - ⌊q⌋ then ⌊q⌋ + 1
  else if ⌊q⌋ % 2 = 0 then ⌊q⌋ else ⌊q⌋ + 1

/-- Python's `int(...)` applied to a float: truncation toward zero. -/
def pytrunc (q : ℚ) : ℤ :=
  if 0 ≤ q then ⌊q⌋ else ⌈q⌉

/-! Formula library (`designer_clicker_bot.py` lines 1036-1049, 1160-1165,
    1228-1240); the same pure formulas also appear in
    `src/bot/services/economy.py`. -/

/-- Source `xp_to_level(n) = 100 * n * n`. -/
def xp_to_level (n : ℤ) : ℤ := 100 * n * n

/-- Source `upgrade_cost(base, growth, n) = round(base * growth ** (n - 1))`. -/
def upgrade_cost (base : ℤ) (growth : ℚ) (n : ℤ) : ℤ :=
  pyround (base * growth ^ (n - 1))

/-- Source `required_clicks(base_clicks, level) =
    int(round(base_clicks * (1 + 0.15 * floor(level / 5))))`. -/
def required_clicks (base_clicks level : ℤ) : ℤ :=
  pyround (base_clicks * (1 + (15/100) * (⌊(level : ℚ) / 5⌋ : ℤ)))

/-- Source `base_reward_from_required(req, reward_mul) =
    int(round(req * 0.6 * reward_mul))`. -/
def base_reward_from_required (req : ℤ) (reward_mul : ℚ) : ℤ :=
  pyround (req * (6/10) * reward_mul)

/-- Source `snapshot_required_clicks` (lines 1228-1233): the required-click
    snapshot taken at assignment time, floored at 1. -/
def snapshot_required_clicks (base_clicks user_level : ℤ) (req_clicks_pct : ℚ) : ℤ :=
  max 1 (pyround (required_clicks base_clicks user_level * (1 - req_clicks_pct)))

/-- Source `finish_order_reward` (lines 1236-1240): clamps the snapshotted
    reward multiplier to at least 1.0, then applies the 60% base formula. -/
def finish_order_reward (required_clicks_snapshot : ℤ) (reward_snapshot_mul : ℚ) : ℤ :=
  base_reward_from_required required_clicks_snapshot (max 1 reward_snapshot_mul)

/-- Variant shipped in the (non-importable) `src/bot/services/economy.py`:
    its `finish_order_reward` forwards the multiplier without the
    `max(1.0, ...)` clamp. -/
def finish_order_reward_pkg (required_clicks_snapshot : ℤ) (reward_multiplier : ℚ) : ℤ :=
  base_reward_from_required required_clicks_snapshot reward_multiplier

/-- Source `team_income_per_min(base_per_min, level)`. -/
def team_income_per_min (base_per_min : ℚ) (level : ℤ) : ℚ :=
  if level ≤ 0 then 0
  else base_per_min * (1 + (1/4) * ((level : ℚ) - 1))

/-! Stat aggregation (`get_user_stats`, lines 1052-1157).  The function
    reads the player's boost rows, equipped-item rows, unexpired buffs,
    learned skills and the prestige entry, folds them into additive and
    percentage accumulators exactly as the Python loops do, and applies
    the final clamps. -/

/-- Row selected from the boost query: boost type, owned level, step value. -/
structure BoostRow where
  btype : String
  level : ℤ
  step : ℚ

/-- Row selected from the equipped-items query: bonus type and value. -/
structure ItemRow where
  btype : String
  value : ℚ

/-- Effect dictionary carried by a buff payload or a skill
    (absent keys default to 0, as with Python `dict.get`). -/
structure EffectPayload where
  cp_add : ℤ
  cp_pct : ℚ
  reward_pct : ℚ
  passive_pct : ℚ
  req_clicks_pct : ℚ
  xp_pct : ℚ

/-- A user buff row: optional expiry plus its payload. -/
structure BuffRow where
  expires_at : Option ℚ
  payload : EffectPayload

/-- Buff filter of the source: a buff is skipped when it has an expiry that
    is not in the future (`expires and expires <= now`). -/
def buffActive (now : ℚ) (b : BuffRow) : Bool :=
  match b.expires_at with
  | none => true
  | some e => decide (now < e)

/-- The user columns `get_user_stats` reads. -/
structure UserBase where
  cp_base : ℤ
  reward_mul : ℚ
  passive_mul : ℚ

/-- The stat vector returned by `get_user_stats`. -/
structure UserStats where
  cp : ℤ
  reward_mul_total : ℚ
  passive_mul_total : ℚ
  req_clicks_pct : ℚ
  ratelimit_plus : ℤ
  xp_pct : ℚ
  prestige_pct : ℚ

/-- Boost-row fold of the source: accumulates `(cp_add, reward_add,
    passive_add)`; `cp` rows are truncated with `int(...)`. -/
def foldBoosts (rows : List BoostRow) : ℤ × ℚ × ℚ :=
  rows.foldl
    (fun acc r =>
      if r.btype = "cp" then (acc.1 + pytrunc (r.level * r.step), acc.2.1, acc.2.2)
      else if r.btype = "reward" then (acc.1, acc.2.1 + r.level * r.step, acc.2.2)
      else if r.btype = "passive" then (acc.1, acc.2.1, acc.2.2 + r.level * r.step)
      else acc)
    (0, 0, 0)

/-- Item-row fold of the source: accumulates `(cp_pct, passive_pct,
    req_clicks_pct, reward_pct, ratelimit_plus)`. -/
def foldItems (rows : List ItemRow) : ℚ × ℚ × ℚ × ℚ × ℤ :=
  rows.foldl
    (fun acc r =>
      if r.btype = "cp_pct" then (acc.1 + r.value, acc.2.1, acc.2.2.1, acc.2.2.2.1, acc.2.2.2.2)
      else if r.btype = "passive_pct" then (acc.1, acc.2.1 + r.value, acc.2.2.1, acc.2.2.2.1, acc.2.2.2.2)
      else if r.btype = "req_clicks_pct" then (acc.1, acc.2.1, acc.2.2.1 + r.value, acc.2.2.2.1, acc.2.2.2.2)
      else if r.btype = "reward_pct" then (acc.1, acc.2.1, acc.2.2.1, acc.2.2.2.1 + r.value, acc.2.2.2.2)
      else if r.btype = "ratelimit_plus" then (acc.1, acc.2.1, acc.2.2.1, acc.2.2.2.1, acc.2.2.2.2 + pytrunc r.value)
      else acc)
    (0, 0, 0, 0, 0)

/-- Buff/skill payload fold of the source: componentwise sums of
    `(cp_add, cp_pct, reward_pct, passive_pct, req_clicks_pct, xp_pct)`. -/
def foldEffects (ps : List EffectPayload) : ℤ × ℚ × ℚ × ℚ × ℚ × ℚ :=
  ps.foldl
    (fun acc p =>
      (acc.1 + p.cp_add, acc.2.1 + p.cp_pct, acc.2.2.1 + p.reward_pct,
       acc.2.2.2.1 + p.passive_pct, acc.2.2.2.2.1 + p.req_clicks_pct,
       acc.2.2.2.2.2 + p.xp_pct))
    (0, 0, 0, 0, 0, 0)

/-- Shallow embedding of `get_user_stats`: fold all modifier sources, add
    the prestige percentage, and combine with the final clamps of lines
    1146-1157.  The buff list is filtered through the expiry check before
    folding (the source also deletes the expired rows; that side effect
    does not affect the returned stats). -/
def get_user_stats (u : UserBase) (boosts : List BoostRow) (items : List ItemRow)
    (now : ℚ) (buffs : List BuffRow) (skills : List EffectPayload)
    (prestige : Option ℚ) : UserStats :=
  let b := foldBoosts boosts
  let it := foldItems items
  let effs := (buffs.filter (buffActive now)).map BuffRow.payload ++ skills
  let e := foldEffects effs
  let prestige_pct : ℚ := match prestige with
    | some reputation => max 0 (reputation * (1/100))
    | none => 0
  let cp_add : ℤ := b.1 + e.1
  let cp_pct : ℚ := it.1 + e.2.1 + prestige_pct
  let reward_add : ℚ := b.2.1
  let passive_add : ℚ := b.2.2
  let reward_pct : ℚ := it.2.2.2.1 + e.2.2.1 + prestige_pct
  let passive_pct : ℚ := it.2.1 + e.2.2.2.1 + prestige_pct
  let req_clicks_pct : ℚ := it.2.2.1 + e.2.2.2.2.1
  let xp_pct : ℚ := e.2.2.2.2.2
  let cp : ℤ := pyround ((u.cp_base + cp_add) * (1 + cp_pct))
  { cp := max 1 cp
    reward_mul_total := max 0 (1 + u.reward_mul + reward_add + reward_pct)
    passive_mul_total := max 0 (1 + u.passive_mul + passive_add + passive_pct)
    req_clicks_pct := max 0 req_clicks_pct
    ratelimit_plus := it.2.2.2.2
    xp_pct := max 0 xp_pct
    prestige_pct := prestige_pct }

example : pyround (1/2) = 0 := by norm_num [pyround]
example : pyround (3/2) = 2 := by norm_num [pyround]
example : pyround (-(1/2)) = 0 := by norm_num [pyround]
example : pyround (-(3/2)) = -2 := by norm_num [pyround]
example : pytrunc (27/10) = 2 := by norm_num [pytrunc]
example : pytrunc (-(27/10)) = -2 := by norm_num [pytrunc, Int.ceil_neg]
example : finish_order_reward 100 0 = 60 := by
  norm_num [finish_order_reward, base_reward_from_required, pyround]
example : finish_order_reward 100 1 = 60 := by
  norm_num [finish_order_reward, base_reward_from_required, pyround]
example : finish_order_reward_pkg 100 0 = 0 := by
  norm_num [finish_order_reward_pkg, base_reward_from_required, pyround]
example : required_clicks 100 1 = 100 := by
  norm_num [required_clicks, pyround]
example : upgrade_cost 100 (5/4) 1 = 100 := by
  norm_num [upgrade_cost, pyround]
example : upgrade_cost 100 (5/4) 2 = 125 := by
  norm_num [upgrade_cost, pyround]
example : upgrade_cost 100 (5/4) 3 = 156 := by
  norm_num [upgrade_cost, pyround]

/-! Order lifecycle (`UserOrder` model, `take_order` lines 2548-2586,
    `handle_click` lines 2315-2391, `profile_cancel_order` lines 3869-3891). -/

/-- The `UserOrder` columns the engine reads and writes. -/
structure UserOrder where
  order_id : ℕ
  progress_clicks : ℤ
  required_clicks : ℤ
  finished : Bool
  canceled : Bool
  reward_snapshot_mul : ℚ

/-- Active filter used by `get_active_order` / `ensure_no_active_order`:
    `finished == False and canceled == False`. -/
def isActive (o : UserOrder) : Bool :=
  !o.finished && !o.canceled

/-- The row `take_order` inserts: zero progress, frozen requirement and
    frozen reward-multiplier snapshot, both terminal flags clear. -/
def mk_user_order (order_id : ℕ) (req : ℤ) (reward_mul_total : ℚ) : UserOrder :=
  { order_id := order_id
    progress_clicks := 0
    required_clicks := req
    finished := false
    canceled := false
    reward_snapshot_mul := reward_mul_total }

/-- The live stats a click consults: the click power and the live reward
    multiplier of `get_user_stats` at click time. -/
structure LiveStats where
  cp : ℤ
  reward_mul_total : ℚ

/-- Click applied to an active order (lines 2338-2356): progress is bumped
    by the live click power and clamped at the frozen requirement; when the
    requirement is reached the order is marked finished and the reward is
    computed from the frozen snapshot (`active.required_clicks`,
    `active.reward_snapshot_mul`), not from the live stats. -/
def handle_click_active (o : UserOrder) (stats : LiveStats) : UserOrder × Option ℤ :=
  let o1 : UserOrder := { o with progress_clicks := min o.required_clicks (o.progress_clicks + stats.cp) }
  if o1.required_clicks ≤ o1.progress_clicks then
    ({ o1 with finished := true }, some (finish_order_reward o1.required_clicks o1.reward_snapshot_mul))
  else (o1, none)

/-- A whole run of click actions: each click first queries the active order
    (a finished or canceled order is no longer clicked, mirroring
    `get_active_order`); the rewards paid out along the run are collected. -/
def run_clicks (o : UserOrder) : List LiveStats → UserOrder × List ℤ
  | [] => (o, [])
  | s :: rest =>
    if isActive o then
      let step := handle_click_active o s
      let next := run_clicks step.1 rest
      (next.1, step.2.toList ++ next.2)
    else run_clicks o rest

/-- Number of active (in-progress) assignments among a player's order rows. -/
def count_active (l : List UserOrder) : ℕ :=
  (l.filter isActive).length

/-- The `get_active_order` query over the player's order rows. -/
def get_active_order (l : List UserOrder) : Option UserOrder :=
  l.find? isActive

/-- In-place mutation of the first active order, as the handlers do after
    fetching the row returned by `get_active_order`. -/
def update_active (f : UserOrder → UserOrder) : List UserOrder → List UserOrder
  | [] => []
  | o :: rest => if isActive o then f o :: rest else o :: update_active f rest

/-- Engine operations that touch the player's order rows. -/
inductive OrderOp where
  | take (order_id : ℕ) (req : ℤ) (reward_mul_total : ℚ)
  | click (stats : LiveStats)
  | cancel

/-- One engine operation applied to the player's order rows:
    `take` inserts only after `ensure_no_active_order` succeeds
    (lines 2559-2575), `click` mutates the active row (lines 2324-2356),
    `cancel` sets the `canceled` flag of the active row (line 3884). -/
def apply_order_op (l : List UserOrder) : OrderOp → List UserOrder
  | .take order_id req mul =>
    match get_active_order l with
    | some _ => l
    | none => l ++ [mk_user_order order_id req mul]
  | .click stats => update_active (fun o => (handle_click_active o stats).1) l
  | .cancel => update_active (fun o => { o with canceled := true }) l

/-- A sequence of engine operations starting from the given order rows. -/
def run_order_ops (l : List UserOrder) (ops : List OrderOp) : List UserOrder :=
  ops.foldl apply_order_op l

/-! Passive income accrual (`apply_offline_income`, lines 1182-1212, and
    `calc_passive_income_rate`, lines 1168-1179). -/

/-- Source constant `MAX_OFFLINE_SECONDS = 12 * 60 * 60` (line 100). -/
def MAX_OFFLINE_SECONDS : ℚ := 12 * 60 * 60

/-- The user columns `apply_offline_income` reads and writes. -/
structure OfflineUser where
  balance : ℤ
  passive_income_collected : ℤ
  last_seen : ℚ

/-- Source `calc_passive_income_rate`: per-second passive rate, the sum of
    the hired team members' per-minute incomes divided by 60 and scaled by
    the passive multiplier.  A team row is `(base_income_per_min, level)`. -/
def calc_passive_income_rate (team_rows : List (ℚ × ℤ)) (passive_mul_total : ℚ) : ℚ :=
  ((team_rows.map (fun r => team_income_per_min r.1 r.2)).sum / 60) * passive_mul_total

/-- Shallow embedding of `apply_offline_income`: elapsed seconds are floored
    at 0, clamped at `MAX_OFFLINE_SECONDS`, multiplied by the per-second
    rate and truncated with `int(...)`; `last_seen` is set to `now` before
    the amount is tested, and balance plus the lifetime counter move only
    when the amount is positive.  Returns the new user state and the
    accrued amount. -/
def apply_offline_income (u : OfflineUser) (now : ℚ) (rate : ℚ) : OfflineUser × ℤ :=
  let delta_raw : ℚ := max 0 (now - u.last_seen)
  let delta : ℚ := min delta_raw MAX_OFFLINE_SECONDS
  let amount : ℤ := pytrunc (rate * delta)
  let u1 : OfflineUser := { u with last_seen := now }
  if 0 < amount then
    ({ u1 with
        balance := u1.balance + amount
        passive_income_collected := u1.passive_income_collected + amount }, amount)
  else (u1, amount)

/-! XP grants (`add_xp_and_levelup`, lines 1265-1278): a while loop that
    repeatedly subtracts `xp_to_level(level)` and increments the level while
    the accumulated XP is at or above the threshold.  The loop is modelled
    with a fuel argument: at any level `n ≥ 1` an iteration consumes
    `100 * n * n ≥ 100` XP and at level 0 the zero threshold is passed at
    most once, so `xp + 1` iterations always suffice and the fuelled
    function agrees with the Python loop on every input. -/

/-- One fuelled unfolding of the levelling while loop over `(level, xp)`. -/
def levelup_loop : ℕ → ℤ → ℤ → ℤ × ℤ
  | 0, level, xp => (level, xp)
  | fuel + 1, level, xp =>
    if xp_to_level level ≤ xp then levelup_loop fuel (level + 1) (xp - xp_to_level level)
    else (level, xp)

/-- Source `add_xp_and_levelup`: add the XP gain, then run the rollover
    loop; returns the new `(level, xp)`. -/
def add_xp_and_levelup (level xp xp_gain : ℤ) : ℤ × ℤ :=
  levelup_loop ((xp + xp_gain).toNat + 1) level (xp + xp_gain)

/-! Purchases and upgrades (`shop_buy_boost` lines 2846-2899,
    `shop_buy_item` lines 3010-3073, `team_upgrade` lines 3222-3277). -/

/-- Business outcome of a purchase or upgrade attempt. -/
inductive PurchaseOutcome where
  | insufficient_funds
  | purchased
  | already_owned
deriving DecidableEq

/-- Source `shop_buy_boost` effect on `(balance, owned boost level)`: the
    next level costs `upgrade_cost(base_cost, growth, next_level)`; with
    `balance < cost` nothing changes, otherwise the cost is deducted and
    the level becomes `next_level`. -/
def shop_buy_boost (balance cur_level : ℤ) (base_cost : ℤ) (growth : ℚ) :
    (ℤ × ℤ) × PurchaseOutcome :=
  let lvl_next := cur_level + 1
  let cost := upgrade_cost base_cost growth lvl_next
  if balance < cost then ((balance, cur_level), .insufficient_funds)
  else ((balance - cost, lvl_next), .purchased)

/-- Source `team_upgrade` effect on `(balance, team member level)`: the
    cost is `int(round(base_cost * 1.22 ** level))`; with `balance < cost`
    nothing changes, otherwise the cost is deducted and the level grows
    by one. -/
def team_upgrade (balance lvl : ℤ) (base_cost : ℤ) : (ℤ × ℤ) × PurchaseOutcome :=
  let cost := pyround (base_cost * (122/100 : ℚ) ^ lvl)
  if balance < cost then ((balance, lvl), .insufficient_funds)
  else ((balance - cost, lvl + 1), .purchased)

/-- Source `shop_buy_item` effect on `(balance, owned flag)`: an owned item
    is reported as already owned; otherwise with `balance < price` nothing
    changes, else the price is deducted and ownership is recorded. -/
def shop_buy_item (balance : ℤ) (owned : Bool) (price : ℤ) :
    (ℤ × Bool) × PurchaseOutcome :=
  if owned then ((balance, owned), .already_owned)
  else if balance < price then ((balance, owned), .insufficient_funds)
  else ((balance - price, true), .purchased)

/-! Achievement evaluation (`evaluate_achievements`, lines 1839-1906),
    restricted to a single `(player, achievement)` pair: the body of the
    `for ach in achievements` loop with the freshly recomputed metric
    `value`. -/

/-- The `UserAchievement` columns the evaluator reads and writes. -/
structure UserAchievement where
  progress : ℤ
  unlocked_at : Option ℚ
  notified : Bool

/-- Loop body of `evaluate_achievements` for one achievement: refresh the
    progress of an existing record, create a missing record, set
    `unlocked_at` the first time the threshold is reached, and report the
    record back when it is unlocked but not yet notified.  Returns the
    stored record and whether it was appended to the newly-unlocked list. -/
def evaluate_achievement_step (ua : Option UserAchievement) (value threshold : ℤ)
    (now : ℚ) : UserAchievement × Bool :=
  match ua with
  | some r =>
    let r1 : UserAchievement := { r with progress := value }
    if threshold ≤ value then
      let r2 : UserAchievement :=
        if r1.unlocked_at = none then { r1 with unlocked_at := some now } else r1
      let r3 : UserAchievement := { r2 with notified := r2.notified && !(r2.unlocked_at = none) }
      (r3, !r3.notified)
    else (r1, false)
  | none =>
    if threshold ≤ value then
      ({ progress := value, unlocked_at := some now, notified := false }, true)
    else ({ progress := value, unlocked_at := none, notified := false }, false)

/-! Helper lemmas about single clicks and click runs. -/

lemma handle_click_active_required_eq (o : UserOrder) (s : LiveStats) :
    ((handle_click_active o s).1).required_clicks = o.required_clicks := by
  simp only [handle_click_active]
  split <;> rfl

lemma handle_click_active_snapshot_eq (o : UserOrder) (s : LiveStats) :
    ((handle_click_active o s).1).reward_snapshot_mul = o.reward_snapshot_mul := by
  simp only [handle_click_active]
  split <;> rfl

lemma handle_click_active_canceled_eq (o : UserOrder) (s : LiveStats) :
    ((handle_click_active o s).1).canceled = o.canceled := by
  simp only [handle_click_active]
  split <;> rfl

lemma handle_click_active_progress_le (o : UserOrder) (s : LiveStats) :
    ((handle_click_active o s).1).progress_clicks ≤ o.required_clicks := by
  simp only [handle_click_active]
  split <;> exact min_le_left _ _

lemma handle_click_active_reward_eq (o : UserOrder) (s : LiveStats) (x : ℤ)
    (h : (handle_click_active o s).2 = some x) :
    x = finish_order_reward o.required_clicks o.reward_snapshot_mul := by
  simp only [handle_click_active] at h
  split at h
  · exact (Option.some_inj.mp h).symm
  · exact absurd h (by simp)

lemma run_clicks_inactive (l : List LiveStats) (o : UserOrder)
    (h : isActive o = false) : run_clicks o l = (o, []) := by
  induction l with
  | nil => rfl
  | cons s rest ih => simp [run_clicks, h, ih]

lemma run_clicks_required_eq (l : List LiveStats) (o : UserOrder) :
    ((run_clicks o l).1).required_clicks = o.required_clicks := by
  induction l generalizing o with
  | nil => rfl
  | cons s rest ih =>
    by_cases h : isActive o
    · simp only [run_clicks, h, if_true]
      rw [ih]
      exact handle_click_active_required_eq o s
    · simp only [run_clicks, Bool.not_eq_true] at h ⊢
      rw [if_neg (by simp [h])]
      exact ih o

lemma run_clicks_snapshot_eq (l : List LiveStats) (o : UserOrder) :
    ((run_clicks o l).1).reward_snapshot_mul = o.reward_snapshot_mul := by
  induction l generalizing o with
  | nil => rfl
  | cons s rest ih =>
    by_cases h : isActive o
    · simp only [run_clicks, h, if_true]
      rw [ih]
      exact handle_click_active_snapshot_eq o s
    · simp only [run_clicks]
      rw [if_neg (by simp_all)]
      exact ih o

lemma run_clicks_rewards_eq (l : List LiveStats) (o : UserOrder) (r : ℤ)
    (hr : r ∈ (run_clicks o l).2) :
    r = finish_order_reward o.required_clicks o.reward_snapshot_mul := by
  induction l generalizing o with
  | nil => simp [run_clicks] at hr
  | cons s rest ih =>
    by_cases h : isActive o
    · simp only [run_clicks, h, if_true] at hr
      rcases List.mem_append.mp hr with hstep | hnext
      · match hs : (handle_click_active o s).2 with
        | none => rw [hs] at hstep; simp at hstep
        | some x =>
          rw [hs] at hstep
          simp only [Option.toList_some, List.mem_singleton] at hstep
          rw [hstep]
          exact handle_click_active_reward_eq o s x hs
      · have := ih ((handle_click_active o s).1) hnext
        rwa [handle_click_active_required_eq, handle_click_active_snapshot_eq] at this
    · simp only [run_clicks] at hr
      rw [if_neg (by simp_all)] at hr
      exact ih o hr

lemma run_clicks_progress_le (l : List LiveStats) (o : UserOrder)
    (h : o.progress_clicks ≤ o.required_clicks) :
    ((run_clicks o l).1).progress_clicks ≤ o.required_clicks := by
  induction l generalizing o with
  | nil => exact h
  | cons s rest ih =>
    by_cases hact : isActive o
    · simp only [run_clicks, hact, if_true]
      have hreq := handle_click_active_required_eq o s
      have := ih ((handle_click_active o s).1)
        (by rw [hreq]; exact handle_click_active_progress_le o s)
      rwa [hreq] at this
    · simp only [run_clicks]
      rw [if_neg (by simp_all)]
      exact ih o h

lemma isActive_handle_click_not_done (o : UserOrder) (s : LiveStats)
    (hact : isActive o = true)
    (hlt : ¬ o.required_clicks ≤ o.progress_clicks + s.cp) :
    handle_click_active o s =
      ({ o with progress_clicks := o.progress_clicks + s.cp }, none) ∧
    isActive { o with progress_clicks := o.progress_clicks + s.cp } = true := by
  constructor
  · simp only [handle_click_active]
    rw [min_eq_right (le_of_not_le hlt)]
    rw [if_neg hlt]
  · simpa [isActive] using hact

lemma run_clicks_completes (n : ℕ) (o : UserOrder) (cp : ℤ) (mul : ℚ)
    (hact : isActive o = true)
    (hlt : o.progress_clicks < o.required_clicks)
    (hn : o.required_clicks - o.progress_clicks ≤ (n : ℤ) * cp) :
    ((run_clicks o (List.replicate n ⟨cp, mul⟩)).1).finished = true ∧
    ((run_clicks o (List.replicate n ⟨cp, mul⟩)).1).progress_clicks = o.required_clicks := by
  induction n generalizing o with
  | zero =>
    exfalso
    simp only [Nat.cast_zero, zero_mul] at hn
    omega
  | succ n ih =>
    rw [List.replicate_succ]
    simp only [run_clicks, hact, if_true]
    by_cases hdone : o.required_clicks ≤ o.progress_clicks + cp
    · have hstep : handle_click_active o ⟨cp, mul⟩ =
          ({ o with progress_clicks := o.required_clicks, finished := true },
           some (finish_order_reward o.required_clicks o.reward_snapshot_mul)) := by
        simp only [handle_click_active]
        rw [min_eq_left hdone]
        rw [if_pos (le_refl _)]
      rw [hstep]
      rw [run_clicks_inactive _ _ (by simp [isActive])]
      exact ⟨rfl, rfl⟩
    · obtain ⟨hstep, hact2⟩ := isActive_handle_click_not_done o ⟨cp, mul⟩ hact hdone
      rw [hstep]
      have := ih { o with progress_clicks := o.progress_clicks + cp } hact2
        (by simpa using lt_of_not_le hdone)
        (by push_cast at hn ⊢; nlinarith)
      simpa using this

/-! Helper lemmas about the active-order count. -/

lemma count_active_cons (o : UserOrder) (l : List UserOrder) :
    count_active (o :: l) = count_active l + (if isActive o then 1 else 0) := by
  simp only [count_active, List.filter_cons]
  split <;> simp [Nat.add_comm]

lemma count_active_append_one (l : List UserOrder) (o : UserOrder) :
    count_active (l ++ [o]) = count_active l + (if isActive o then 1 else 0) := by
  simp only [count_active, List.filter_append, List.length_append, List.filter_cons,
    List.filter_nil]
  split <;> simp

lemma count_active_eq_zero_of_no_active :
    ∀ l : List UserOrder, get_active_order l = none → count_active l = 0 := by
  intro l
  induction l with
  | nil => intro _; rfl
  | cons o rest ih =>
    intro h
    simp only [get_active_order, List.find?_cons] at h
    cases hoa : isActive o with
    | true => rw [hoa] at h; exact absurd h (by simp)
    | false =>
      rw [hoa] at h
      rw [count_active_cons, hoa]
      simpa using ih h

lemma count_active_update_le (f : UserOrder → UserOrder) :
    ∀ l : List UserOrder, count_active (update_active f l) ≤ count_active l := by
  intro l
  induction l with
  | nil => exact le_refl _
  | cons o rest ih =>
    by_cases h : isActive o
    · simp only [update_active, h, if_true]
      rw [count_active_cons, count_active_cons, h, if_pos rfl]
      have : (if isActive (f o) then 1 else 0) ≤ 1 := by split <;> omega
      omega
    · simp only [update_active]
      rw [if_neg h]
      rw [count_active_cons, count_active_cons]
      rw [if_neg h]
      omega

lemma apply_order_op_inv (l : List UserOrder) (op : OrderOp)
    (h : count_active l ≤ 1) : count_active (apply_order_op l op) ≤ 1 := by
  cases op with
  | take order_id req mul =>
    simp only [apply_order_op]
    cases hg : get_active_order l with
    | some o => exact h
    | none =>
      rw [count_active_append_one]
      rw [count_active_eq_zero_of_no_active l hg]
      simp [isActive, mk_user_order]
  | click stats => exact le_trans (count_active_update_le _ l) h
  | cancel => exact le_trans (count_active_update_le _ l) h

lemma run_order_ops_inv (ops : List OrderOp) :
    ∀ l : List UserOrder, count_active l ≤ 1 → count_active (run_order_ops l ops) ≤ 1 := by
  induction ops with
  | nil => intro l h; exact h
  | cons op rest ih =>
    intro l h
    simp only [run_order_ops, List.foldl_cons]
    exact ih (apply_order_op l op) (apply_order_op_inv l op h)

/-! Helper lemmas about offline income. -/

lemma apply_offline_income_last_seen (u : OfflineUser) (now rate : ℚ) :
    ((apply_offline_income u now rate).1).last_seen = now := by
  simp only [apply_offline_income]
  split <;> rfl

lemma apply_offline_income_amount (u : OfflineUser) (now rate : ℚ) :
    (apply_offline_income u now rate).2 =
      pytrunc (rate * min (max 0 (now - u.last_seen)) MAX_OFFLINE_SECONDS) := by
  simp only [apply_offline_income]
  split <;> rfl

lemma apply_offline_income_balance (u : OfflineUser) (now rate : ℚ) :
    ((apply_offline_income u now rate).1).balance =
      u.balance + max 0 ((apply_offline_income u now rate).2) := by
  simp only [apply_offline_income]
  split
  · next hpos => simp [max_eq_right (le_of_lt hpos)]
  · next hneg => simp [max_eq_left (le_of_not_lt hneg)]

/-- C1: for every non-negative integer required-clicks value and every
    reward multiplier, `finish_order_reward` returns
    `round(required_clicks * 0.6 * max(1.0, reward_multiplier))`; in
    particular multipliers 0.0 and 1.0 both give 60 on a requirement of
    100, and a multiplier below 1.0 never pays below the 60% baseline. -/
theorem C1_finish_order_reward_formula :
    (∀ (req : ℤ) (mul : ℚ), 0 ≤ req →
        finish_order_reward req mul = pyround ((req : ℚ) * (6/10) * max 1 mul)) ∧
    finish_order_reward 100 0 = 60 ∧
    finish_order_reward 100 1 = 60 ∧
    (∀ (req : ℤ) (mul : ℚ), mul ≤ 1 →
        finish_order_reward req mul = finish_order_reward req 1) := by
  refine ⟨fun req mul _ => rfl, ?_, ?_, fun req mul h => ?_⟩
  · norm_num [finish_order_reward, base_reward_from_required, pyround]
  · norm_num [finish_order_reward, base_reward_from_required, pyround]
  · simp only [finish_order_reward]
    rw [max_eq_left h, max_self]

/-- Witness for C1 at `req = 7`, `mul = 1/2`. -/
theorem C1_finish_order_reward_formula_witness :
    finish_order_reward 7 (1/2) = pyround ((7 : ℚ) * (6/10) * max 1 (1/2)) ∧
    finish_order_reward 7 (1/2) = finish_order_reward 7 1 :=
  ⟨C1_finish_order_reward_formula.1 7 (1/2) (by norm_num),
   C1_finish_order_reward_formula.2.2.2 7 (1/2) (by norm_num)⟩

/-- C2: the completion reward and the required-clicks target of an
    assignment depend only on the values frozen at assign time: whatever
    live stats the player has at each click (two arbitrary runs `l1`,
    `l2`), the frozen target is unchanged and every reward paid equals
    `finish_order_reward req snap`, so the payouts of the two runs are
    identical. -/
theorem C2_snapshot_immutability :
    ∀ (order_id : ℕ) (req : ℤ) (snap : ℚ) (l1 l2 : List LiveStats),
      ((run_clicks (mk_user_order order_id req snap) l1).1.required_clicks = req ∧
       (run_clicks (mk_user_order order_id req snap) l2).1.required_clicks = req) ∧
      (∀ r ∈ (run_clicks (mk_user_order order_id req snap) l1).2,
          r = finish_order_reward req snap) ∧
      (∀ r ∈ (run_clicks (mk_user_order order_id req snap) l2).2,
          r = finish_order_reward req snap) ∧
      (∀ r1 ∈ (run_clicks (mk_user_order order_id req snap) l1).2,
       ∀ r2 ∈ (run_clicks (mk_user_order order_id req snap) l2).2, r1 = r2) := by
  intro order_id req snap l1 l2
  have h1 : ∀ r ∈ (run_clicks (mk_user_order order_id req snap) l1).2,
      r = finish_order_reward req snap := by
    intro r hr
    exact run_clicks_rewards_eq l1 (mk_user_order order_id req snap) r hr
  have h2 : ∀ r ∈ (run_clicks (mk_user_order order_id req snap) l2).2,
      r = finish_order_reward req snap := by
    intro r hr
    exact run_clicks_rewards_eq l2 (mk_user_order order_id req snap) r hr
  exact ⟨⟨run_clicks_required_eq l1 _, run_clicks_required_eq l2 _⟩, h1, h2,
    fun r1 hr1 r2 hr2 => (h1 r1 hr1).trans (h2 r2 hr2).symm⟩

/-- Witness for C2: one-click runs with different live stats. -/
theorem C2_snapshot_immutability_witness :
    (run_clicks (mk_user_order 0 1 2) [⟨1, 5⟩]).1.required_clicks = 1 ∧
    (1 : ℤ) = finish_order_reward 1 2 :=
  ⟨(C2_snapshot_immutability 0 1 2 [⟨1, 5⟩] [⟨1, 7⟩]).1.1,
   (C2_snapshot_immutability 0 1 2 [⟨1, 5⟩] [⟨1, 7⟩]).2.1 1
     (by norm_num [run_clicks, handle_click_active, isActive, mk_user_order,
        finish_order_reward, base_reward_from_required, pyround])⟩

/-- C3: passive accrual clamps elapsed time at the 12-hour window (with
    `last_seen` 100 hours in the past the amount is `rate * 12h`, after
    truncation), updates `last_seen` to now unconditionally, and an
    immediate second touchpoint accrues zero and leaves the balance
    unchanged. -/
theorem C3_offline_income_cap :
    (∀ (u : OfflineUser) (now rate : ℚ),
        ((apply_offline_income u now rate).1).last_seen = now) ∧
    (∀ (u : OfflineUser) (now rate : ℚ),
        (apply_offline_income u now rate).2 =
          pytrunc (rate * min (max 0 (now - u.last_seen)) MAX_OFFLINE_SECONDS)) ∧
    (∀ (u : OfflineUser) (now rate : ℚ), u.last_seen = now - 100 * 60 * 60 →
        (apply_offline_income u now rate).2 = pytrunc (rate * MAX_OFFLINE_SECONDS) ∧
        (apply_offline_income ((apply_offline_income u now rate).1) now rate).2 = 0 ∧
        ((apply_offline_income ((apply_offline_income u now rate).1) now rate).1).balance =
          ((apply_offline_income u now rate).1).balance) := by
  refine ⟨apply_offline_income_last_seen, apply_offline_income_amount, ?_⟩
  intro u now rate h
  have hsecond : (apply_offline_income ((apply_offline_income u now rate).1) now rate).2 = 0 := by
    rw [apply_offline_income_amount, apply_offline_income_last_seen]
    have hmin : ((0 : ℚ) ⊓ MAX_OFFLINE_SECONDS) = 0 :=
      min_eq_left (by norm_num [MAX_OFFLINE_SECONDS])
    norm_num [pytrunc, hmin]
  refine ⟨?_, hsecond, ?_⟩
  · rw [apply_offline_income_amount, h]
    have helapsed : now - (now - 100 * 60 * 60) = (360000 : ℚ) := by ring
    rw [helapsed]
    norm_num [MAX_OFFLINE_SECONDS]
  · rw [apply_offline_income_balance ((apply_offline_income u now rate).1), hsecond]
    simp

/-- Witness for C3 with `last_seen` exactly 100 hours before `now = 0`. -/
theorem C3_offline_income_cap_witness :
    (apply_offline_income ⟨0, 0, -360000⟩ 0 1).2 = pytrunc (1 * MAX_OFFLINE_SECONDS) ∧
    (apply_offline_income ((apply_offline_income ⟨0, 0, -360000⟩ 0 1).1) 0 1).2 = 0 ∧
    ((apply_offline_income ((apply_offline_income ⟨0, 0, -360000⟩ 0 1).1) 0 1).1).balance =
      ((apply_offline_income ⟨0, 0, -360000⟩ 0 1).1).balance :=
  C3_offline_income_cap.2.2 ⟨0, 0, -360000⟩ 0 1 (by norm_num)

/-- C4: every engine operation on the player's order rows preserves the
    at-most-one-active-assignment invariant (assign is guarded by the
    no-active-order check, clicking mutates only the active row, completion
    and cancellation set one terminal flag), and every reachable state,
    obtained by any operation sequence from the initial empty ledger, has
    at most one active assignment. -/
theorem C4_at_most_one_active_order :
    (∀ (l : List UserOrder) (op : OrderOp),
        count_active l ≤ 1 → count_active (apply_order_op l op) ≤ 1) ∧
    (∀ ops : List OrderOp, count_active (run_order_ops [] ops) ≤ 1) :=
  ⟨apply_order_op_inv, fun ops => run_order_ops_inv ops [] (by decide)⟩

/-- Witness for C4: a take operation on the empty ledger. -/
theorem C4_at_most_one_active_order_witness :
    count_active (apply_order_op [] (OrderOp.take 1 100 1)) ≤ 1 :=
  C4_at_most_one_active_order.1 [] (OrderOp.take 1 100 1) (by decide)

/-- C5: the XP rollover loop can cross several levels in one grant:
    5500 XP (the sum of the level-1..5 thresholds) granted at level 1 with
    zero XP yields exactly level 6 with XP 0, and the same final state
    results from five successive threshold-sized grants. -/
theorem C5_levelup_multi_level :
    add_xp_and_levelup 1 0 5500 = (6, 0) ∧
    xp_to_level 1 + xp_to_level 2 + xp_to_level 3 + xp_to_level 4 + xp_to_level 5 = 5500 ∧
    List.foldl (fun st g => add_xp_and_levelup st.1 st.2 g) (1, 0)
      [xp_to_level 1, xp_to_level 2, xp_to_level 3, xp_to_level 4, xp_to_level 5] = (6, 0) := by
  refine ⟨?_, ?_, ?_⟩ <;> decide

/-- C6: a click clamps progress at the frozen requirement, so along every
    click sequence from a fresh assignment the progress never exceeds
    `required_clicks`, whatever the click power at each click. -/
theorem C6_progress_clamp :
    (∀ (o : UserOrder) (s : LiveStats),
        ((handle_click_active o s).1).progress_clicks ≤ o.required_clicks) ∧
    (∀ (order_id : ℕ) (req : ℤ) (snap : ℚ) (l : List LiveStats), 0 ≤ req →
        ((run_clicks (mk_user_order order_id req snap) l).1).progress_clicks ≤ req) := by
  refine ⟨handle_click_active_progress_le, fun order_id req snap l h => ?_⟩
  exact run_clicks_progress_le l (mk_user_order order_id req snap) h

/-- Witness for C6: two clicks of power 3 on a requirement of 5. -/
theorem C6_progress_clamp_witness :
    ((run_clicks (mk_user_order 0 5 1) [⟨3, 1⟩, ⟨3, 1⟩]).1).progress_clicks ≤ 5 :=
  C6_progress_clamp.2 0 5 1 [⟨3, 1⟩, ⟨3, 1⟩] (by norm_num)

/-- C7: for every player and every combination of modifier sources the
    aggregated click power is at least 1. -/
theorem C7_click_power_floor :
    ∀ (u : UserBase) (boosts : List BoostRow) (items : List ItemRow) (now : ℚ)
      (buffs : List BuffRow) (skills : List EffectPayload) (prestige : Option ℚ),
      1 ≤ (get_user_stats u boosts items now buffs skills prestige).cp := by
  intro u boosts items now buffs skills prestige
  exact le_max_left _ _

/-- C8: a purchase or upgrade whose computed cost exceeds the balance
    reports insufficient funds and leaves balance and owned levels/items
    unchanged; otherwise exactly the cost is deducted (so the balance
    stays non-negative) and the owned level grows by one (or the item
    becomes owned).  An already-owned item is reported as such and
    nothing changes. -/
theorem C8_purchase_balance_discipline :
    (∀ (balance cur_level base_cost : ℤ) (growth : ℚ),
        (balance < upgrade_cost base_cost growth (cur_level + 1) →
          shop_buy_boost balance cur_level base_cost growth =
            ((balance, cur_level), .insufficient_funds)) ∧
        (upgrade_cost base_cost growth (cur_level + 1) ≤ balance →
          shop_buy_boost balance cur_level base_cost growth =
            ((balance - upgrade_cost base_cost growth (cur_level + 1), cur_level + 1),
              .purchased) ∧
          0 ≤ balance - upgrade_cost base_cost growth (cur_level + 1))) ∧
    (∀ balance lvl base_cost : ℤ,
        (balance < pyround (base_cost * (122/100 : ℚ) ^ lvl) →
          team_upgrade balance lvl base_cost = ((balance, lvl), .insufficient_funds)) ∧
        (pyround (base_cost * (122/100 : ℚ) ^ lvl) ≤ balance →
          team_upgrade balance lvl base_cost =
            ((balance - pyround (base_cost * (122/100 : ℚ) ^ lvl), lvl + 1), .purchased) ∧
          0 ≤ balance - pyround (base_cost * (122/100 : ℚ) ^ lvl))) ∧
    (∀ balance price : ℤ,
        shop_buy_item balance true price = ((balance, true), .already_owned) ∧
        (balance < price →
          shop_buy_item balance false price = ((balance, false), .insufficient_funds)) ∧
        (price ≤ balance →
          shop_buy_item balance false price = ((balance - price, true), .purchased) ∧
          0 ≤ balance - price)) := by
  refine ⟨fun balance cur_level base_cost growth => ⟨fun h => ?_, fun h => ⟨?_, by omega⟩⟩,
    fun balance lvl base_cost => ⟨fun h => ?_, fun h => ⟨?_, by omega⟩⟩,
    fun balance price => ⟨rfl, fun h => ?_, fun h => ⟨?_, by omega⟩⟩⟩
  · simp only [shop_buy_boost]
    rw [if_pos h]
  · simp only [shop_buy_boost]
    rw [if_neg (not_lt.mpr h)]
  · simp only [team_upgrade]
    rw [if_pos h]
  · simp only [team_upgrade]
    rw [if_neg (not_lt.mpr h)]
  · simp only [shop_buy_item]
    rw [if_neg (by simp), if_pos h]
  · simp only [shop_buy_item]
    rw [if_neg (by simp), if_neg (not_lt.mpr h)]

/-- Witness for C8: an exactly-affordable boost and an unaffordable item. -/
theorem C8_purchase_balance_discipline_witness :
    (shop_buy_boost 100 0 100 (5/4) =
        ((100 - upgrade_cost 100 (5/4) (0 + 1), 0 + 1), .purchased) ∧
      0 ≤ 100 - upgrade_cost 100 (5/4) (0 + 1)) ∧
    shop_buy_item 5 false 10 = ((5, false), .insufficient_funds) :=
  ⟨(C8_purchase_balance_discipline.1 100 0 100 (5/4)).2
      (by norm_num [upgrade_cost, pyround]),
   (C8_purchase_balance_discipline.2.2 5 10).2.1 (by norm_num)⟩

/-- C9: once the unlock timestamp of a (player, achievement) record is set,
    a further evaluation never clears or changes it, even when the metric
    value has dropped below the threshold; the evaluation only refreshes
    the progress counter. -/
theorem C9_achievement_unlock_monotonic :
    ∀ (r : UserAchievement) (value threshold : ℤ) (now t : ℚ),
      r.unlocked_at = some t →
      (evaluate_achievement_step (some r) value threshold now).1 = { r with progress := value } ∧
      ((evaluate_achievement_step (some r) value threshold now).1).unlocked_at = some t := by
  intro r value threshold now t h
  have main : (evaluate_achievement_step (some r) value threshold now).1 =
      { r with progress := value } := by
    simp only [evaluate_achievement_step]
    split
    · rw [if_neg (by simp [h])]
      simp [h]
    · rfl
  refine ⟨main, ?_⟩
  rw [main]
  exact h

/-- Witness for C9: an unlocked record re-evaluated under a metric value
    that has fallen below the threshold. -/
theorem C9_achievement_unlock_monotonic_witness :
    (evaluate_achievement_step (some ⟨5, some 10, true⟩) 3 4 20).1 =
      { progress := 3, unlocked_at := some 10, notified := true } ∧
    ((evaluate_achievement_step (some ⟨5, some 10, true⟩) 3 4 20).1).unlocked_at = some 10 :=
  C9_achievement_unlock_monotonic ⟨5, some 10, true⟩ 3 4 20 10 rfl

/-- C10: the required-clicks snapshot is at least 1 for every order, level
    and reduction percentage (even reductions of 100% or more), hence is
    never 0 (the progress-percentage division is well defined), and with
    any click power of at least 1 the assignment is completed by finitely
    many clicks. -/
theorem C10_snapshot_positive_and_completable :
    (∀ (base_clicks user_level : ℤ) (req_clicks_pct : ℚ),
        1 ≤ snapshot_required_clicks base_clicks user_level req_clicks_pct ∧
        snapshot_required_clicks base_clicks user_level req_clicks_pct ≠ 0) ∧
    (∀ (order_id : ℕ) (req : ℤ) (snap : ℚ) (cp : ℤ) (mul : ℚ),
        1 ≤ req → 1 ≤ cp →
        ∃ n : ℕ,
          ((run_clicks (mk_user_order order_id req snap)
              (List.replicate n ⟨cp, mul⟩)).1).finished = true ∧
          ((run_clicks (mk_user_order order_id req snap)
              (List.replicate n ⟨cp, mul⟩)).1).progress_clicks = req) := by
  constructor
  · intro base_clicks user_level req_clicks_pct
    have h1 : 1 ≤ snapshot_required_clicks base_clicks user_level req_clicks_pct :=
      le_max_left _ _
    exact ⟨h1, by omega⟩
  · intro order_id req snap cp mul hreq hcp
    refine ⟨req.toNat, ?_⟩
    have hn : req - (0 : ℤ) ≤ (req.toNat : ℤ) * cp := by
      rw [Int.toNat_of_nonneg (by omega)]
      nlinarith
    exact run_clicks_completes req.toNat (mk_user_order order_id req snap) cp mul rfl
      (by simpa [mk_user_order] using hreq) hn

/-- Witness for C10: requirement 3 with click power 2. -/
theorem C10_snapshot_positive_and_completable_witness :
    (1 ≤ snapshot_required_clicks 100 1 2 ∧ snapshot_required_clicks 100 1 2 ≠ 0) ∧
    ∃ n : ℕ,
      ((run_clicks (mk_user_order 0 3 0) (List.replicate n ⟨2, 0⟩)).1).finished = true ∧
      ((run_clicks (mk_user_order 0 3 0) (List.replicate n ⟨2, 0⟩)).1).progress_clicks = 3 :=
  ⟨C10_snapshot_positive_and_completable.1 100 1 2,
   C10_snapshot_positive_and_completable.2 0 3 0 2 0 (by norm_num) (by norm_num)⟩
